/-
Verification of the AppEvent dispatcher module (src/event/event.c).

The C module is embedded shallowly:
  * the static module state (m_numEvents, m_events[MAX_EVENTS], m_initialized
    flag) becomes the structure `EvState`; the fixed 32-slot array `m_events`
    is a `List AppEvent` of length 32 (C static storage is zero-initialized,
    modelled by `zeroEvent`);
  * machine integers are `Nat` with an explicit modulus where the width can
    matter: the `uint16_t` diagnostics counters wrap at 65536 and the
    `uint8_t` event counter wraps at 256;
  * fallible code paths (failed ASSERT, out-of-bounds array access /
    undefined behavior, dereference of a null pointer) return `none`;
  * callbacks (C function pointers invoked as `(*(event->callback))()`) are
    embedded syntactically by the grammar `Cb`: a null pointer, a callback
    that does not touch the dispatcher, or a callback that calls
    `AppEvent_Trigger id` — the re-entrancy the spec discusses.  Nested
    callback invocation is bounded by an explicit fuel parameter.
  * each event carries a ghost field `invocations` counting the number of
    times its callback was actually invoked (incremented exactly at the two
    `(*(event->callback))()` call sites of the C code); it is not read by
    any modelled operation.
  * the consumed platform timer service (timer.h, out of scope per the spec)
    is modelled per its documented interface: a handle with an armed flag and
    a programmed value; the device is single-shot — expiry disarms it and the
    dispatcher re-arms explicitly.  `TimerGetCurrentTime` and the random
    jitter offset are supplied as explicit parameters.
-/
import Mathlib

set_option autoImplicit false

namespace AppEventModel

/-- MAX_EVENTS in event.c -/
def MAX_EVENTS : Nat := 32

/-- EVENT_TIMEOUT_MIN in event.c (gates only a diagnostic warning) -/
def EVENT_TIMEOUT_MIN : Nat := 6

/-- APP_EVENT_CONTEXTS from the public header -/
inductive APP_EVENT_CONTEXTS
  | MAIN
  | IMMEDIATE
deriving DecidableEq, Repr

/-- EVENT_TYPES from event.c -/
inductive EVENT_TYPES
  | GENERAL
  | TIMER
  | INTERRUPT
deriving DecidableEq, Repr

/-- IrqModes from the consumed gpio interface; only NO_IRQ vs not is read
by event.c -/
inductive IrqModes
  | NO_IRQ
  | IRQ_RISING
  | IRQ_FALLING
  | IRQ_BOTH
deriving DecidableEq, Repr

/-- Embedded callback code: a null function pointer, a callback with no
effect on the dispatcher state, or a callback that calls AppEvent_Trigger. -/
inductive Cb
  | null
  | skip
  | trig (id : Nat)
deriving DecidableEq, Repr

/-- EventDiagnostics_t from event.c; triggerCount and processCount are
uint16_t -/
structure EventDiagnostics where
  debugEnable : Bool
  startTime : Nat
  triggerCount : Nat
  processCount : Nat
deriving DecidableEq, Repr

/-- AppEvent_t from event.c.  `timerRunning`, `timerValue`, `timerRemaining`
model the opaque TimerEvent_t handle; `irqGpio` models the Gpio_t pointer
(none = NULL, some n = a gpio whose intNo is n); `irqBound` models whether
GpioSetInterrupt is currently bound for this event; `invocations` is the
ghost callback-invocation counter. -/
structure AppEvent where
  name : Option String
  context : APP_EVENT_CONTEXTS
  callback : Cb
  triggered : Bool
  paused : Bool
  single : Bool
  id : Nat
  type : EVENT_TYPES
  timerRunning : Bool
  timerValue : Nat
  timerRemaining : Nat
  timeout : Nat
  timeoutRandomizer : Nat
  irqGpio : Option Nat
  irqMode : IrqModes
  irqPriority : Nat
  irqBound : Bool
  diagnostics : EventDiagnostics
  invocations : Nat
deriving DecidableEq, Repr

/-- The zero-initialized static slot (C static storage duration). -/
def zeroEvent : AppEvent where
  name := none
  context := APP_EVENT_CONTEXTS.MAIN
  callback := Cb.null
  triggered := false
  paused := false
  single := false
  id := 0
  type := EVENT_TYPES.GENERAL
  timerRunning := false
  timerValue := 0
  timerRemaining := 0
  timeout := 0
  timeoutRandomizer := 0
  irqGpio := none
  irqMode := IrqModes.NO_IRQ
  irqPriority := 0
  irqBound := false
  diagnostics := { debugEnable := false, startTime := 0, triggerCount := 0, processCount := 0 }
  invocations := 0

/-- The module's static state: m_numEvents (uint8_t), m_events[MAX_EVENTS],
m_initialized. -/
structure EvState where
  m_numEvents : Nat
  m_events : List AppEvent
  m_inited : Bool
deriving DecidableEq, Repr

/-- State at program load: zeroed statics, m_initialized = false. -/
def initialState : EvState where
  m_numEvents := 0
  m_events := List.replicate MAX_EVENTS zeroEvent
  m_inited := false

/-- Read slot i of m_events (in-bounds callers only; out-of-bounds reads are
guarded by the operations themselves). -/
def evAt (s : EvState) (i : Nat) : AppEvent :=
  s.m_events.getD i zeroEvent

/-- Update slot i of m_events in place. -/
def modEv (i : Nat) (f : AppEvent → AppEvent) (s : EvState) : EvState :=
  { s with m_events := s.m_events.set i (f (evAt s i)) }

/-!  The trigger path.  `DoTrigger` is event.c's DoTrigger acting on the
event at array position i; in the IMMEDIATE branch it invokes the callback,
which may itself call AppEvent_Trigger, re-entrantly.  The re-entrancy
depth is bounded by an explicit fuel (a real C stack would overflow on
unbounded re-entrancy; `none` models that the bound was exhausted).  To
keep every definition computable by the kernel, the dispatcher is first
defined parametrically in the function `trig` a nested callback calls
(`...With` family), and the fuel-indexed versions are obtained by
structural recursion on the fuel.  `AppEvent_Trigger` scans all
m_numEvents slots for a matching id, with no break and no range assertion,
exactly as the C loop does. -/

/-- Run an embedded callback body; `trig` interprets a nested
AppEvent_Trigger call. -/
def invokeCbWith (trig : Nat → EvState → Option EvState) :
    Cb → EvState → Option EvState
  | Cb.null, s => some s
  | Cb.skip, s => some s
  | Cb.trig j, s => trig j s

/-- The `if (event->callback != NULL) { (*(event->callback))(); }` call
site: a null pointer is skipped; otherwise the ghost invocation counter of
event i is bumped and the callback body runs. -/
def callCbWith (trig : Nat → EvState → Option EvState) (i : Nat)
    (s : EvState) : Option EvState :=
  if (evAt s i).callback = Cb.null then some s
  else invokeCbWith trig (evAt s i).callback
    (modEv i (fun ev => { ev with invocations := ev.invocations + 1 }) s)

/-- DoTrigger from event.c, acting on the event at position i.
MAIN: set `triggered`, bump the uint16 triggerCount.
IMMEDIATE: bump both uint16 counters, then invoke the callback inline. -/
def DoTriggerWith (trig : Nat → EvState → Option EvState) (i : Nat)
    (s : EvState) : Option EvState :=
  match (evAt s i).context with
  | APP_EVENT_CONTEXTS.MAIN =>
      some (modEv i (fun ev => { ev with
        triggered := true,
        diagnostics := { ev.diagnostics with
          triggerCount := (ev.diagnostics.triggerCount + 1) % 65536 } }) s)
  | APP_EVENT_CONTEXTS.IMMEDIATE =>
      callCbWith trig i
        (modEv i (fun ev => { ev with
          diagnostics := { ev.diagnostics with
            triggerCount := (ev.diagnostics.triggerCount + 1) % 65536,
            processCount := (ev.diagnostics.processCount + 1) % 65536 } }) s)

/-- The body of AppEvent_Trigger's for-loop over the listed positions. -/
def triggerScanWith (trig : Nat → EvState → Option EvState) :
    List Nat → Nat → EvState → Option EvState
  | [], _, s => some s
  | i :: rest, id, s =>
      match (if (evAt s i).id = id then DoTriggerWith trig i s else some s) with
      | none => none
      | some s1 => triggerScanWith trig rest id s1

/-- AppEvent_Trigger from event.c: scan every registered slot for the id.
A callback nested k levels deep runs with k less fuel; at zero fuel a
nested re-trigger is out of (stack) budget. -/
def AppEvent_Trigger : Nat → Nat → EvState → Option EvState
  | 0, id, s => triggerScanWith (fun _ _ => none) (List.range s.m_numEvents) id s
  | fuel + 1, id, s =>
      triggerScanWith (AppEvent_Trigger fuel) (List.range s.m_numEvents) id s

/-- The interpretation of a nested AppEvent_Trigger call at a given fuel. -/
def cbFuel : Nat → Nat → EvState → Option EvState
  | 0 => fun _ _ => none
  | fuel + 1 => AppEvent_Trigger fuel

/-- invokeCb at a given fuel. -/
def invokeCb (fuel : Nat) : Cb → EvState → Option EvState :=
  invokeCbWith (cbFuel fuel)

/-- callCb at a given fuel. -/
def callCb (fuel : Nat) (i : Nat) (s : EvState) : Option EvState :=
  callCbWith (cbFuel fuel) i s

/-- DoTrigger at a given fuel. -/
def DoTrigger (fuel : Nat) (i : Nat) (s : EvState) : Option EvState :=
  DoTriggerWith (cbFuel fuel) i s

/-- triggerScan at a given fuel. -/
def triggerScan (fuel : Nat) (idxs : List Nat) (id : Nat) (s : EvState) :
    Option EvState :=
  triggerScanWith (cbFuel fuel) idxs id s

theorem AppEvent_Trigger_eq (fuel id : Nat) (s : EvState) :
    AppEvent_Trigger fuel id s
      = triggerScan fuel (List.range s.m_numEvents) id s := by
  cases fuel <;> rfl

theorem triggerScan_nil (fuel id : Nat) (s : EvState) :
    triggerScan fuel [] id s = some s := rfl

theorem triggerScan_cons (fuel i : Nat) (rest : List Nat) (id : Nat)
    (s : EvState) :
    triggerScan fuel (i :: rest) id s =
      match (if (evAt s i).id = id then DoTrigger fuel i s else some s) with
      | none => none
      | some s1 => triggerScan fuel rest id s1 := rfl

theorem callCb_eq (fuel i : Nat) (s : EvState) :
    callCb fuel i s =
      if (evAt s i).callback = Cb.null then some s
      else invokeCb fuel (evAt s i).callback
        (modEv i (fun ev => { ev with invocations := ev.invocations + 1 }) s) := rfl

theorem DoTrigger_eq (fuel i : Nat) (s : EvState) :
    DoTrigger fuel i s =
      match (evAt s i).context with
      | APP_EVENT_CONTEXTS.MAIN =>
          some (modEv i (fun ev => { ev with
            triggered := true,
            diagnostics := { ev.diagnostics with
              triggerCount := (ev.diagnostics.triggerCount + 1) % 65536 } }) s)
      | APP_EVENT_CONTEXTS.IMMEDIATE =>
          callCb fuel i
            (modEv i (fun ev => { ev with
              diagnostics := { ev.diagnostics with
                triggerCount := (ev.diagnostics.triggerCount + 1) % 65536,
                processCount := (ev.diagnostics.processCount + 1) % 65536 } }) s) := rfl

/-- StartEvent from event.c.  Timer branch (irqMode == NO_IRQ): when the
jitter bound is positive, TimerSetValue(timeout + randomOffset) with the
random offset `off` supplied as a parameter, then TimerStartWithParam arms
the timer.  Interrupt branch: GpioSetInterrupt binds the line; a NULL
irqGpio would be dereferenced (undefined), modelled as `none`.  Debug
printing has no state effect and is omitted. -/
def StartEvent (off : Nat) (i : Nat) (s : EvState) : Option EvState :=
  if (evAt s i).irqMode = IrqModes.NO_IRQ then
    some (modEv i (fun ev => { ev with
      timerRunning := true, timerRemaining := ev.timerValue })
      (if 0 < (evAt s i).timeoutRandomizer then
        modEv i (fun ev => { ev with timerValue := ev.timeout + off }) s
      else s))
  else
    match (evAt s i).irqGpio with
    | none => none
    | some _ => some (modEv i (fun ev => { ev with irqBound := true }) s)

/-- OnEvent from event.c: the timer-expiry callback registered by
TimerInit.  Triggers the event; a continuous event re-arms itself. -/
def OnEvent (fuel off : Nat) (i : Nat) (s : EvState) : Option EvState :=
  match DoTrigger fuel i s with
  | none => none
  | some s1 =>
      if (evAt s1 i).single then some s1
      else StartEvent off i s1

/-- Hardware expiry of event i's timer (platform timer service modelled
from its consumed interface: it fires only while armed and disarms itself
on expiry — it does not auto-repeat), followed by the OnEvent callback. -/
def timerFire (fuel off : Nat) (i : Nat) (s : EvState) : Option EvState :=
  if (evAt s i).timerRunning then
    OnEvent fuel off i (modEv i (fun ev => { ev with timerRunning := false }) s)
  else none

/-- `timerFire` iterated N times with zero jitter offsets: N expiries with
no intervening ProcessMainEvents. -/
def fireN (fuel : Nat) (i : Nat) : Nat → EvState → Option EvState
  | 0, s => some s
  | n + 1, s =>
      match timerFire fuel 0 i s with
      | none => none
      | some s1 => fireN fuel i n s1

/-- Write the m_numEvents counter. -/
def setNum (k : Nat) (s : EvState) : EvState :=
  { s with m_numEvents := k }

/-- The slot initialization performed by CreateEvent's body.  Note the C
code leaves `name` unchanged when the argument is NULL and resets neither
the timer nor the interrupt pointer fields. -/
def createFields (name : Option String) (cb : Cb) (ctx : APP_EVENT_CONTEXTS)
    (id : Nat) (ev : AppEvent) : AppEvent :=
  { ev with
    id := id
    triggered := false
    context := ctx
    callback := cb
    irqMode := IrqModes.NO_IRQ
    diagnostics := { ev.diagnostics with
      debugEnable := true, triggerCount := 0, processCount := 0 }
    type := EVENT_TYPES.GENERAL
    paused := false
    name := match name with | some n => some n | none => ev.name }

/-- CreateEvent from event.c: `uint8_t id = m_numEvents++`, then populate
the slot's general fields.  Writing a slot at or past MAX_EVENTS is an
out-of-bounds array write (undefined), modelled as `none`; m_numEvents is a
uint8_t, so its increment wraps at 256. -/
def CreateEvent (name : Option String) (cb : Cb) (ctx : APP_EVENT_CONTEXTS)
    (s : EvState) : Option (EvState × Nat) :=
  if s.m_numEvents < s.m_events.length then
    some (setNum ((s.m_numEvents + 1) % 256)
      (modEv s.m_numEvents (createFields name cb ctx s.m_numEvents) s),
      s.m_numEvents)
  else none

theorem evAt_setNum (k : Nat) (s : EvState) (j : Nat) :
    evAt (setNum k s) j = evAt s j := rfl

theorem length_setNum (k : Nat) (s : EvState) :
    (setNum k s).m_events.length = s.m_events.length := rfl

theorem numEvents_setNum (k : Nat) (s : EvState) :
    (setNum k s).m_numEvents = k := rfl

/-- AppEvent_RegisterEvent from event.c.  The four ASSERTs guard
initialization, capacity, the id out-pointer (always present here: the
model returns the id) and a non-null callback. -/
def AppEvent_RegisterEvent (name : Option String) (cb : Cb)
    (ctx : APP_EVENT_CONTEXTS) (s : EvState) : Option (EvState × Nat) :=
  if s.m_inited ∧ s.m_numEvents < MAX_EVENTS ∧ cb ≠ Cb.null then
    CreateEvent name cb ctx s
  else none

/-- The timer-specific slot update of RegisterTimerWithRandomizer:
TimerInit (handle reset, OnEvent installed), TimerSetValue(timeout), and
the timer fields. -/
def timerFields (timeout timeoutRandomizer : Nat) (ev : AppEvent) :
    AppEvent :=
  { ev with
    timerRunning := false
    timerValue := timeout
    timeout := timeout
    timeoutRandomizer := timeoutRandomizer
    type := EVENT_TYPES.TIMER }

/-- AppEvent_RegisterTimerWithRandomizer from event.c: the generic core
plus the timer fields. -/
def AppEvent_RegisterTimerWithRandomizer (name : Option String) (cb : Cb)
    (timeout timeoutRandomizer : Nat) (ctx : APP_EVENT_CONTEXTS)
    (s : EvState) : Option (EvState × Nat) :=
  if s.m_inited ∧ s.m_numEvents < MAX_EVENTS ∧ cb ≠ Cb.null then
    match CreateEvent name cb ctx s with
    | none => none
    | some (s1, id) =>
        some (modEv id (timerFields timeout timeoutRandomizer) s1, id)
  else none

/-- AppEvent_RegisterTimer from event.c: asserts initialization and
delegates with a zero jitter bound. -/
def AppEvent_RegisterTimer (name : Option String) (cb : Cb) (timeout : Nat)
    (ctx : APP_EVENT_CONTEXTS) (s : EvState) : Option (EvState × Nat) :=
  if s.m_inited then
    AppEvent_RegisterTimerWithRandomizer name cb timeout 0 ctx s
  else none

/-- The interrupt-specific slot update of RegisterInterrupt (the gpio
pointer is stored, not dereferenced). -/
def interruptFields (gpio : Option Nat) (irqMode : IrqModes)
    (irqPriority : Nat) (ev : AppEvent) : AppEvent :=
  { ev with
    irqGpio := gpio
    irqMode := irqMode
    irqPriority := irqPriority
    type := EVENT_TYPES.INTERRUPT }

/-- AppEvent_RegisterInterrupt from event.c: the generic core plus the
interrupt binding fields. -/
def AppEvent_RegisterInterrupt (name : Option String) (cb : Cb)
    (gpio : Option Nat) (irqMode : IrqModes) (irqPriority : Nat)
    (ctx : APP_EVENT_CONTEXTS) (s : EvState) : Option (EvState × Nat) :=
  if s.m_inited ∧ s.m_numEvents < MAX_EVENTS ∧ cb ≠ Cb.null then
    match CreateEvent name cb ctx s with
    | none => none
    | some (s1, id) =>
        some (modEv id (interruptFields gpio irqMode irqPriority) s1, id)
  else none

/-- AppEvent_Init from event.c: idempotent; first call zeroes the count. -/
def AppEvent_Init (s : EvState) : EvState :=
  if s.m_inited then s
  else { s with m_numEvents := 0, m_inited := true }

/-- AppEvent_Start from event.c: unconditionally clear `triggered`, record
`single` and the start timestamp (`now` models TimerGetCurrentTime), then
StartEvent.  No range assertion: any id below the array capacity reaches
the slot; beyond it the access is undefined (`none`). -/
def AppEvent_Start (now off : Nat) (id : Nat) (sgl : Bool) (s : EvState) :
    Option EvState :=
  if id < s.m_events.length then
    StartEvent off id
      (modEv id (fun ev => { ev with
        triggered := false
        single := sgl
        diagnostics := { ev.diagnostics with startTime := now } }) s)
  else none

/-- AppEvent_Stop from event.c: TimerStop for the timer branch,
GpioRemoveInterrupt for the interrupt branch; nothing else changes. -/
def AppEvent_Stop (id : Nat) (s : EvState) : Option EvState :=
  if id < s.m_events.length then
    if (evAt s id).irqMode = IrqModes.NO_IRQ then
      some (modEv id (fun ev => { ev with timerRunning := false }) s)
    else
      some (modEv id (fun ev => { ev with irqBound := false }) s)
  else none

/-- AppEvent_GetTimeout from event.c: ASSERT(event->irqGpio == NULL), then
return the stored timeout. -/
def AppEvent_GetTimeout (id : Nat) (s : EvState) : Option Nat :=
  if id < s.m_events.length then
    if (evAt s id).irqGpio = none then some (evAt s id).timeout else none
  else none

/-- AppEvent_SetTimeout from event.c: ASSERT(event->irqGpio == NULL), then
TimerSetValue(t), clear `triggered`, store the timeout. -/
def AppEvent_SetTimeout (id t : Nat) (s : EvState) : Option EvState :=
  if id < s.m_events.length then
    if (evAt s id).irqGpio = none then
      some (modEv id (fun ev => { ev with
        timerValue := t, triggered := false, timeout := t }) s)
    else none
  else none

/-- AppEvent_TimeRemaining from event.c: delegates straight to the timer
handle with no assertion of any kind. -/
def AppEvent_TimeRemaining (id : Nat) (s : EvState) : Option Nat :=
  if id < s.m_events.length then some (evAt s id).timerRemaining else none

/-- AppEvent_Running from event.c: delegates straight to the timer handle
with no assertion of any kind. -/
def AppEvent_Running (id : Nat) (s : EvState) : Option Bool :=
  if id < s.m_events.length then some (evAt s id).timerRunning else none

/-- AppEvent_Pause from event.c: ASSERT(context == MAIN), set `paused`. -/
def AppEvent_Pause (id : Nat) (s : EvState) : Option EvState :=
  if id < s.m_events.length then
    if (evAt s id).context = APP_EVENT_CONTEXTS.MAIN then
      some (modEv id (fun ev => { ev with paused := true }) s)
    else none
  else none

/-- AppEvent_Resume from event.c: ASSERT(context == MAIN), clear `paused`. -/
def AppEvent_Resume (id : Nat) (s : EvState) : Option EvState :=
  if id < s.m_events.length then
    if (evAt s id).context = APP_EVENT_CONTEXTS.MAIN then
      some (modEv id (fun ev => { ev with paused := false }) s)
    else none
  else none

/-- The body of AppEvent_ProcessMainEvents' for-loop over the listed
positions: for a triggered, unpaused event, clear the flag first, then
admit the callback per the four-way disjunction of the C code, bumping the
uint16 processCount and invoking the callback when admitted. -/
def processScan (fuel : Nat) (idxs : List Nat) (s : EvState) :
    Option EvState :=
  match idxs with
  | [] => some s
  | i :: rest =>
      if (evAt s i).triggered ∧ (evAt s i).paused = false then
        if (evAt s i).irqMode ≠ IrqModes.NO_IRQ ∨ (evAt s i).single
            ∨ (evAt s i).timerRunning
            ∨ (evAt s i).type = EVENT_TYPES.GENERAL then
          match callCb fuel i (modEv i (fun ev => { ev with
              diagnostics := { ev.diagnostics with
                processCount := (ev.diagnostics.processCount + 1) % 65536 } })
              (modEv i (fun ev => { ev with triggered := false }) s)) with
          | none => none
          | some s3 => processScan fuel rest s3
        else processScan fuel rest (modEv i (fun ev => { ev with triggered := false }) s)
      else processScan fuel rest s

/-- AppEvent_ProcessMainEvents from event.c: one synchronous sweep over the
registered slots in id order. -/
def AppEvent_ProcessMainEvents (fuel : Nat) (s : EvState) : Option EvState :=
  processScan fuel (List.range s.m_numEvents) s

/-- AppEvent_IsIdle from event.c: no registered slot has a pending flag. -/
def AppEvent_IsIdle (s : EvState) : Bool :=
  (List.range s.m_numEvents).all (fun i => !(evAt s i).triggered)

/-! Basic facts about slot reads and writes. -/

theorem evAt_modEv_self (i : Nat) (f : AppEvent → AppEvent) (s : EvState)
    (h : i < s.m_events.length) :
    evAt (modEv i f s) i = f (evAt s i) := by
  simp only [evAt, modEv, List.getD_eq_getD_get?]
  rw [List.get?_set_eq_of_lt _ h]
  rfl

theorem evAt_modEv_ne (i j : Nat) (f : AppEvent → AppEvent) (s : EvState)
    (h : i ≠ j) :
    evAt (modEv i f s) j = evAt s j := by
  simp only [evAt, modEv, List.getD_eq_getD_get?]
  rw [List.get?_set_ne _ _ h]

theorem modEv_numEvents (i : Nat) (f : AppEvent → AppEvent) (s : EvState) :
    (modEv i f s).m_numEvents = s.m_numEvents := rfl

theorem modEv_length (i : Nat) (f : AppEvent → AppEvent) (s : EvState) :
    (modEv i f s).m_events.length = s.m_events.length := by
  simp [modEv]

theorem modEv_modEv (i : Nat) (f g : AppEvent → AppEvent) (s : EvState)
    (h : i < s.m_events.length) :
    modEv i f (modEv i g s) = modEv i (fun e => f (g e)) s := by
  have hv : evAt (modEv i g s) i = g (evAt s i) := evAt_modEv_self i g s h
  show ({ modEv i g s with
    m_events := (modEv i g s).m_events.set i (f (evAt (modEv i g s) i)) } : EvState) = _
  rw [hv]
  simp [modEv, List.set_set]

/-! Facts about the ProcessMainEvents sweep. -/

theorem processScan_quiet (fuel : Nat) (idxs : List Nat) (s : EvState)
    (h : ∀ i ∈ idxs, ¬((evAt s i).triggered ∧ (evAt s i).paused = false)) :
    processScan fuel idxs s = some s := by
  induction idxs with
  | nil => rfl
  | cons i rest ih =>
      rw [processScan, if_neg (h i (List.mem_cons_self i rest))]
      exact ih (fun j hj => h j (List.mem_cons_of_mem i hj))

theorem processScan_append (fuel : Nat) (l1 l2 : List Nat) (s : EvState) :
    processScan fuel (l1 ++ l2) s =
      (processScan fuel l1 s).bind (fun s1 => processScan fuel l2 s1) := by
  induction l1 generalizing s with
  | nil => rfl
  | cons i rest ih =>
      rw [List.cons_append, processScan, processScan]
      by_cases hc : (evAt s i).triggered ∧ (evAt s i).paused = false
      · rw [if_pos hc, if_pos hc]
        by_cases hadm : (evAt s i).irqMode ≠ IrqModes.NO_IRQ ∨ (evAt s i).single
            ∨ (evAt s i).timerRunning ∨ (evAt s i).type = EVENT_TYPES.GENERAL
        · rw [if_pos hadm, if_pos hadm]
          cases hcb : callCb fuel i (modEv i (fun ev => { ev with
              diagnostics := { ev.diagnostics with
                processCount := (ev.diagnostics.processCount + 1) % 65536 } })
              (modEv i (fun ev => { ev with triggered := false }) s)) with
          | none => rfl
          | some s3 => exact ih s3
        · rw [if_neg hadm, if_neg hadm]
          exact ih _
      · rw [if_neg hc, if_neg hc]
        exact ih s

/-! Facts about the AppEvent_Trigger scan. -/

theorem triggerScan_no_match (fuel : Nat) (idxs : List Nat) (id : Nat)
    (s : EvState) (h : ∀ i ∈ idxs, (evAt s i).id ≠ id) :
    triggerScan fuel idxs id s = some s := by
  induction idxs with
  | nil => rfl
  | cons i rest ih =>
      rw [triggerScan_cons, if_neg (h i (List.mem_cons_self i rest))]
      exact ih (fun j hj => h j (List.mem_cons_of_mem i hj))

theorem triggerScan_append (fuel : Nat) (l1 l2 : List Nat) (id : Nat)
    (s : EvState) :
    triggerScan fuel (l1 ++ l2) id s =
      (triggerScan fuel l1 id s).bind (fun s1 => triggerScan fuel l2 id s1) := by
  induction l1 generalizing s with
  | nil =>
      rw [List.nil_append, triggerScan_nil]
      rfl
  | cons i rest ih =>
      rw [List.cons_append, triggerScan_cons, triggerScan_cons]
      by_cases hc : (evAt s i).id = id
      · rw [if_pos hc]
        cases hd : DoTrigger fuel i s with
        | none => rfl
        | some s1 => exact ih s1
      · rw [if_neg hc]
        exact ih s

/-- Splitting the index range of a sweep at a distinguished position. -/
theorem range_split (i n : Nat) (h : i < n) :
    List.range n =
      List.range i ++ i :: (List.range (n - i - 1)).map (fun k => i + 1 + k) := by
  have h1 : n = i + 1 + (n - i - 1) := by omega
  calc List.range n = List.range (i + 1 + (n - i - 1)) := by rw [← h1]
    _ = List.range (i + 1) ++ (List.range (n - i - 1)).map (fun k => i + 1 + k) := by
        rw [List.range_add]
    _ = (List.range i ++ [i]) ++ (List.range (n - i - 1)).map (fun k => i + 1 + k) := by
        rw [List.range_succ]
    _ = List.range i ++ i :: (List.range (n - i - 1)).map (fun k => i + 1 + k) := by
        simp

/-! Result shapes of the individual steps, as functions on the descriptor. -/

/-- Effect of DoTrigger on a MAIN-context descriptor. -/
def triggeredMain (e : AppEvent) : AppEvent :=
  { e with
    triggered := true
    diagnostics := { e.diagnostics with
      triggerCount := (e.diagnostics.triggerCount + 1) % 65536 } }

/-- Effect of DoTrigger on an IMMEDIATE-context descriptor whose callback
does not touch the dispatcher. -/
def processedImm (e : AppEvent) : AppEvent :=
  { e with
    diagnostics := { e.diagnostics with
      triggerCount := (e.diagnostics.triggerCount + 1) % 65536,
      processCount := (e.diagnostics.processCount + 1) % 65536 }
    invocations := e.invocations + 1 }

/-- Effect of one admitted ProcessMainEvents step whose callback does not
touch the dispatcher. -/
def processedSkip (e : AppEvent) : AppEvent :=
  { e with
    triggered := false
    diagnostics := { e.diagnostics with
      processCount := (e.diagnostics.processCount + 1) % 65536 }
    invocations := e.invocations + 1 }

/-- Effect of one admitted ProcessMainEvents step whose callback re-triggers
the event itself (MAIN context). -/
def processedRetrig (e : AppEvent) : AppEvent :=
  { e with
    triggered := true
    diagnostics := { e.diagnostics with
      triggerCount := (e.diagnostics.triggerCount + 1) % 65536,
      processCount := (e.diagnostics.processCount + 1) % 65536 }
    invocations := e.invocations + 1 }

/-- Effect of one timer expiry on a continuous MAIN-context timer event
(fired with a zero jitter offset): flag set, triggerCount bumped, timer
re-armed by StartEvent. -/
def firedMainCont (e : AppEvent) : AppEvent :=
  { e with
    triggered := true
    diagnostics := { e.diagnostics with
      triggerCount := (e.diagnostics.triggerCount + 1) % 65536 }
    timerRunning := true
    timerValue := if 0 < e.timeoutRandomizer then e.timeout + 0 else e.timerValue
    timerRemaining := if 0 < e.timeoutRandomizer then e.timeout + 0 else e.timerValue }

theorem modEv_modEv3 (i : Nat) (f g k : AppEvent → AppEvent) (s : EvState)
    (h : i < s.m_events.length) :
    modEv i f (modEv i g (modEv i k s)) = modEv i (fun e => f (g (k e))) s := by
  rw [modEv_modEv i g k s h, modEv_modEv i f _ s h]

theorem modEv_congr (i : Nat) (f g : AppEvent → AppEvent) (s : EvState)
    (h : f (evAt s i) = g (evAt s i)) : modEv i f s = modEv i g s := by
  simp [modEv, h]

theorem invokeCb_skip (fuel : Nat) (s : EvState) :
    invokeCb fuel Cb.skip s = some s := rfl

theorem invokeCb_trig (fuel j : Nat) (s : EvState) :
    invokeCb (fuel + 1) (Cb.trig j) s = AppEvent_Trigger fuel j s := rfl

/-- DoTrigger on a MAIN-context event only flags it and bumps the counter. -/
theorem DoTrigger_main (fuel i : Nat) (s : EvState)
    (hctx : (evAt s i).context = APP_EVENT_CONTEXTS.MAIN) :
    DoTrigger fuel i s = some (modEv i triggeredMain s) := by
  rw [DoTrigger_eq, hctx]
  rfl

/-- DoTrigger on an IMMEDIATE-context event with a dispatcher-neutral
callback: both counters bumped and the callback invoked inline, exactly
once. -/
theorem DoTrigger_immediate_skip (fuel i : Nat) (s : EvState)
    (hlen : i < s.m_events.length)
    (hctx : (evAt s i).context = APP_EVENT_CONTEXTS.IMMEDIATE)
    (hcb : (evAt s i).callback = Cb.skip) :
    DoTrigger fuel i s = some (modEv i processedImm s) := by
  rw [DoTrigger_eq, hctx]
  rw [callCb_eq]
  rw [evAt_modEv_self _ _ _ hlen]
  have hcb' : ({ evAt s i with
      diagnostics := { (evAt s i).diagnostics with
        triggerCount := ((evAt s i).diagnostics.triggerCount + 1) % 65536,
        processCount := ((evAt s i).diagnostics.processCount + 1) % 65536 } }
      : AppEvent).callback = Cb.skip := hcb
  rw [if_neg (by rw [hcb']; simp), hcb']
  rw [invokeCb_skip, modEv_modEv _ _ _ _ hlen]
  exact congrArg some (modEv_congr _ _ _ _ rfl)

/-- One sweep step on a triggered, unpaused, admitted event whose callback
does not touch the dispatcher: flag cleared, processCount bumped, callback
invoked exactly once. -/
theorem processScan_one_skip (fuel i : Nat) (s : EvState)
    (hlen : i < s.m_events.length)
    (ht : (evAt s i).triggered = true)
    (hp : (evAt s i).paused = false)
    (hadm : (evAt s i).irqMode ≠ IrqModes.NO_IRQ ∨ (evAt s i).single = true
      ∨ (evAt s i).timerRunning = true ∨ (evAt s i).type = EVENT_TYPES.GENERAL)
    (hcb : (evAt s i).callback = Cb.skip) :
    processScan fuel [i] s = some (modEv i processedSkip s) := by
  simp only [processScan]
  rw [if_pos ⟨ht, hp⟩, if_pos hadm, modEv_modEv _ _ _ _ hlen]
  rw [callCb_eq]
  simp only [evAt_modEv_self _ _ _ hlen]
  rw [hcb]
  rw [if_neg (by simp)]
  rw [invokeCb_skip, modEv_modEv _ _ _ _ hlen]
  exact congrArg some (modEv_congr _ _ _ _ rfl)

/-- One sweep step on a triggered, unpaused event that fails the admission
test (a stale continuous-timer flag): the flag is cleared and nothing else
happens — no processCount increment, no callback invocation. -/
theorem processScan_one_stale (fuel i : Nat) (s : EvState)
    (ht : (evAt s i).triggered = true)
    (hp : (evAt s i).paused = false)
    (hm : (evAt s i).irqMode = IrqModes.NO_IRQ)
    (hsg : (evAt s i).single = false)
    (hrun : (evAt s i).timerRunning = false)
    (hty : (evAt s i).type ≠ EVENT_TYPES.GENERAL) :
    processScan fuel [i] s
      = some (modEv i (fun ev => { ev with triggered := false }) s) := by
  simp only [processScan]
  rw [if_pos ⟨ht, hp⟩, if_neg (by simp [hm, hsg, hrun, hty])]

/-- AppEvent_Trigger when exactly one registered slot carries the id and
that slot is a MAIN-context event: the scan finds it, flags it, bumps its
triggerCount, and touches nothing else. -/
theorem AppEvent_Trigger_unique (fuel tid i : Nat) (s : EvState)
    (hi : i < s.m_numEvents)
    (hid_i : (evAt s i).id = tid)
    (hctx : (evAt s i).context = APP_EVENT_CONTEXTS.MAIN)
    (hid : ∀ j, j < s.m_numEvents → j ≠ i → (evAt s j).id ≠ tid) :
    AppEvent_Trigger fuel tid s = some (modEv i triggeredMain s) := by
  rw [AppEvent_Trigger_eq]
  rw [range_split i s.m_numEvents hi, triggerScan_append]
  rw [triggerScan_no_match fuel (List.range i) tid s (fun j hj => by
    have hj' := List.mem_range.mp hj
    exact hid j (by omega) (by omega))]
  show triggerScan fuel (i :: _) tid s = _
  rw [triggerScan_cons, if_pos hid_i, DoTrigger_main fuel i s hctx]
  show triggerScan fuel _ tid (modEv i triggeredMain s) = _
  refine triggerScan_no_match _ _ _ _ (fun j hj => ?_)
  rcases List.mem_map.mp hj with ⟨k, hk, rfl⟩
  have hk' := List.mem_range.mp hk
  rw [evAt_modEv_ne _ _ _ _ (by omega)]
  exact hid (i + 1 + k) (by omega) (by omega)

/-- One sweep step on a triggered, unpaused, admitted MAIN-context event
whose callback re-triggers the event's own id: the flag was cleared before
the callback ran, so the re-trigger leaves the flag pending again; the
callback ran exactly once, and both counters advanced. -/
theorem processScan_one_retrig (fuel i : Nat) (s : EvState)
    (hlen : i < s.m_events.length)
    (hi : i < s.m_numEvents)
    (ht : (evAt s i).triggered = true)
    (hp : (evAt s i).paused = false)
    (hadm : (evAt s i).irqMode ≠ IrqModes.NO_IRQ ∨ (evAt s i).single = true
      ∨ (evAt s i).timerRunning = true ∨ (evAt s i).type = EVENT_TYPES.GENERAL)
    (hcb : (evAt s i).callback = Cb.trig (evAt s i).id)
    (hctx : (evAt s i).context = APP_EVENT_CONTEXTS.MAIN)
    (hid : ∀ j, j < s.m_numEvents → j ≠ i → (evAt s j).id ≠ (evAt s i).id) :
    processScan (fuel + 1) [i] s = some (modEv i processedRetrig s) := by
  simp only [processScan]
  rw [if_pos ⟨ht, hp⟩, if_pos hadm, modEv_modEv _ _ _ _ hlen]
  rw [callCb_eq]
  simp only [evAt_modEv_self _ _ _ hlen]
  rw [hcb]
  rw [if_neg (by simp)]
  rw [invokeCb_trig, modEv_modEv _ _ _ _ hlen]
  rw [AppEvent_Trigger_unique fuel ((evAt s i).id) i]
  · dsimp only
    rw [modEv_modEv _ _ _ _ hlen]
    exact congrArg some (modEv_congr _ _ _ _ rfl)
  · rw [modEv_numEvents]; exact hi
  · rw [evAt_modEv_self _ _ _ hlen]
  · rw [evAt_modEv_self _ _ _ hlen]; exact hctx
  · intro j hj hne
    rw [modEv_numEvents] at hj
    rw [evAt_modEv_ne _ _ _ _ (fun h => hne h.symm)]
    exact hid j hj hne

/-- One hardware expiry of a continuous MAIN-context timer event: the flag
is set, triggerCount bumps, and OnEvent re-arms the timer. -/
theorem timerFire_main_cont (fuel i : Nat) (s : EvState)
    (hlen : i < s.m_events.length)
    (hctx : (evAt s i).context = APP_EVENT_CONTEXTS.MAIN)
    (hm : (evAt s i).irqMode = IrqModes.NO_IRQ)
    (hsg : (evAt s i).single = false)
    (hrun : (evAt s i).timerRunning = true) :
    timerFire fuel 0 i s = some (modEv i firedMainCont s) := by
  unfold timerFire
  rw [if_pos hrun]
  unfold OnEvent
  rw [DoTrigger_main fuel i _ (by
    rw [evAt_modEv_self _ _ _ hlen]
    exact hctx)]
  dsimp only
  rw [modEv_modEv _ _ _ _ hlen]
  rw [evAt_modEv_self _ _ _ hlen]
  have hsg' : ((fun e => triggeredMain ({ e with timerRunning := false} : AppEvent))
      (evAt s i)).single = false := hsg
  rw [if_neg (by rw [hsg']; simp)]
  unfold StartEvent
  rw [evAt_modEv_self _ _ _ hlen]
  have hm' : ((fun e => triggeredMain ({ e with timerRunning := false} : AppEvent))
      (evAt s i)).irqMode = IrqModes.NO_IRQ := hm
  rw [if_pos hm']
  by_cases hr : 0 < (evAt s i).timeoutRandomizer
  · rw [if_pos (show 0 < ((fun e => triggeredMain ({ e with timerRunning := false} : AppEvent))
        (evAt s i)).timeoutRandomizer from hr)]
    rw [modEv_modEv _ _ _ _ hlen, modEv_modEv _ _ _ _ hlen]
    refine congrArg some (modEv_congr _ _ _ _ ?_)
    simp only [firedMainCont, if_pos hr]
    rfl
  · rw [if_neg (show ¬ 0 < ((fun e => triggeredMain ({ e with timerRunning := false} : AppEvent))
        (evAt s i)).timeoutRandomizer from hr)]
    rw [modEv_modEv _ _ _ _ hlen]
    refine congrArg some (modEv_congr _ _ _ _ ?_)
    simp only [firedMainCont, if_neg hr]
    rfl

/-- N + 1 consecutive expiries of a continuous MAIN-context timer event,
with no intervening sweep, iterate the one-expiry effect. -/
theorem fireN_main_cont (fuel N i : Nat) (s : EvState)
    (hlen : i < s.m_events.length)
    (hctx : (evAt s i).context = APP_EVENT_CONTEXTS.MAIN)
    (hm : (evAt s i).irqMode = IrqModes.NO_IRQ)
    (hsg : (evAt s i).single = false)
    (hrun : (evAt s i).timerRunning = true) :
    fireN fuel i (N + 1) s = some (modEv i (firedMainCont^[N + 1]) s) := by
  induction N generalizing s with
  | zero =>
      unfold fireN
      rw [timerFire_main_cont fuel i s hlen hctx hm hsg hrun]
      unfold fireN
      rw [Function.iterate_one]
  | succ n ih =>
      unfold fireN
      rw [timerFire_main_cont fuel i s hlen hctx hm hsg hrun]
      have hlen1 : i < (modEv i firedMainCont s).m_events.length := by
        rw [modEv_length]; exact hlen
      show fireN fuel i (n + 1) (modEv i firedMainCont s)
        = some (modEv i (firedMainCont^[n + 1 + 1]) s)
      rw [ih (modEv i firedMainCont s) hlen1
        (by rw [evAt_modEv_self _ _ _ hlen]; exact hctx)
        (by rw [evAt_modEv_self _ _ _ hlen]; exact hm)
        (by rw [evAt_modEv_self _ _ _ hlen]; exact hsg)
        (by rw [evAt_modEv_self _ _ _ hlen]; rfl)]
      rw [modEv_modEv _ _ _ _ hlen]
      exact congrArg some (modEv_congr _ _ _ _ (Function.iterate_succ_apply _ _ _).symm)

/-- Field-level description of N iterated continuous-timer expiries: the
flag is pending, the uint16 trigger counter advanced by exactly N (no
wrap under the stated bound), all consumer-side fields untouched. -/
theorem firedMainCont_iterate (e : AppEvent) (N : Nat)
    (htc : e.diagnostics.triggerCount + N + 1 < 65536) :
    (firedMainCont^[N + 1] e).triggered = true ∧
    (firedMainCont^[N + 1] e).diagnostics.triggerCount
      = e.diagnostics.triggerCount + (N + 1) ∧
    (firedMainCont^[N + 1] e).diagnostics.processCount
      = e.diagnostics.processCount ∧
    (firedMainCont^[N + 1] e).invocations = e.invocations ∧
    (firedMainCont^[N + 1] e).timerRunning = true ∧
    (firedMainCont^[N + 1] e).context = e.context ∧
    (firedMainCont^[N + 1] e).paused = e.paused ∧
    (firedMainCont^[N + 1] e).single = e.single ∧
    (firedMainCont^[N + 1] e).irqMode = e.irqMode ∧
    (firedMainCont^[N + 1] e).type = e.type ∧
    (firedMainCont^[N + 1] e).callback = e.callback ∧
    (firedMainCont^[N + 1] e).id = e.id := by
  induction N with
  | zero =>
      rw [Function.iterate_one]
      refine ⟨rfl, ?_, rfl, rfl, rfl, rfl, rfl, rfl, rfl, rfl, rfl, rfl⟩
      show (e.diagnostics.triggerCount + 1) % 65536 = e.diagnostics.triggerCount + 1
      exact Nat.mod_eq_of_lt (by omega)
  | succ n ih =>
      obtain ⟨h1, h2, h3, h4, h5, h6, h7, h8, h9, h10, h11, h12⟩ := ih (by omega)
      rw [show n + 1 + 1 = (n + 1) + 1 from rfl, Function.iterate_succ_apply']
      refine ⟨rfl, ?_, h3, h4, rfl, h6, h7, h8, h9, h10, h11, h12⟩
      show ((firedMainCont^[n + 1] e).diagnostics.triggerCount + 1) % 65536
        = e.diagnostics.triggerCount + (n + 1 + 1)
      rw [h2]
      rw [Nat.mod_eq_of_lt (by omega)]
      omega

/-- A full sweep in which only position i can act: the quiet positions are
passed over untouched and the sweep reduces to the single step at i. -/
theorem sweep_single (fuel n i : Nat) (s s2 : EvState)
    (hi : i < n)
    (hq : ∀ j, j < n → j ≠ i → ¬((evAt s j).triggered ∧ (evAt s j).paused = false))
    (hstep : processScan fuel [i] s = some s2)
    (hq2 : ∀ j, j < n → j ≠ i → ¬((evAt s2 j).triggered ∧ (evAt s2 j).paused = false)) :
    processScan fuel (List.range n) s = some s2 := by
  rw [range_split i n hi]
  have hpre : processScan fuel (List.range i) s = some s := by
    refine processScan_quiet fuel _ s (fun j hj => ?_)
    have hj' := List.mem_range.mp hj
    exact hq j (by omega) (by omega)
  have hsingle : processScan fuel (i :: (List.range (n - i - 1)).map (fun k => i + 1 + k)) s =
      processScan fuel ((List.range (n - i - 1)).map (fun k => i + 1 + k)) s2 := by
    have : (i :: (List.range (n - i - 1)).map (fun k => i + 1 + k)) =
        [i] ++ (List.range (n - i - 1)).map (fun k => i + 1 + k) := rfl
    rw [this, processScan_append, hstep]
    rfl
  have hpost : processScan fuel ((List.range (n - i - 1)).map (fun k => i + 1 + k)) s2 = some s2 := by
    refine processScan_quiet fuel _ s2 (fun j hj => ?_)
    rcases List.mem_map.mp hj with ⟨k, hk, rfl⟩
    have hk' := List.mem_range.mp hk
    exact hq2 (i + 1 + k) (by omega) (by omega)
  rw [processScan_append, hpre]
  simpa [hsingle] using hpost

end AppEventModel

namespace AppEventModel

/-- The composite effect of AppEvent_Start on a timer-branch (irqMode ==
NO_IRQ) slot: flag cleared, single and start timestamp recorded, timer
re-programmed when jitter is configured, then armed. -/
def startedNoIrq (now off : Nat) (sgl : Bool) (e : AppEvent) : AppEvent :=
  { e with
    triggered := false
    single := sgl
    diagnostics := { e.diagnostics with startTime := now }
    timerRunning := true
    timerValue := if 0 < e.timeoutRandomizer then e.timeout + off else e.timerValue
    timerRemaining := if 0 < e.timeoutRandomizer then e.timeout + off else e.timerValue }

/-- The composite effect of AppEvent_Start on an interrupt-branch slot. -/
def startedIrq (now : Nat) (sgl : Bool) (e : AppEvent) : AppEvent :=
  { e with
    triggered := false
    single := sgl
    diagnostics := { e.diagnostics with startTime := now }
    irqBound := true }

theorem AppEvent_Start_noirq (now off id : Nat) (sgl : Bool) (s : EvState)
    (hlen : id < s.m_events.length)
    (hmode : (evAt s id).irqMode = IrqModes.NO_IRQ) :
    AppEvent_Start now off id sgl s
      = some (modEv id (startedNoIrq now off sgl) s) := by
  unfold AppEvent_Start
  rw [if_pos hlen]
  unfold StartEvent
  rw [evAt_modEv_self _ _ _ hlen]
  rw [if_pos (show ((fun ev => ({ ev with
      triggered := false
      single := sgl
      diagnostics := { ev.diagnostics with startTime := now } } : AppEvent))
      (evAt s id)).irqMode = IrqModes.NO_IRQ from hmode)]
  by_cases hr : 0 < (evAt s id).timeoutRandomizer
  · rw [if_pos (show 0 < ((fun ev => ({ ev with
        triggered := false
        single := sgl
        diagnostics := { ev.diagnostics with startTime := now } } : AppEvent))
        (evAt s id)).timeoutRandomizer from hr)]
    rw [modEv_modEv _ _ _ _ hlen, modEv_modEv _ _ _ _ hlen]
    refine congrArg some (modEv_congr _ _ _ _ ?_)
    simp only [startedNoIrq, if_pos hr]
  · rw [if_neg (show ¬ 0 < ((fun ev => ({ ev with
        triggered := false
        single := sgl
        diagnostics := { ev.diagnostics with startTime := now } } : AppEvent))
        (evAt s id)).timeoutRandomizer from hr)]
    rw [modEv_modEv _ _ _ _ hlen]
    refine congrArg some (modEv_congr _ _ _ _ ?_)
    simp only [startedNoIrq, if_neg hr]

theorem AppEvent_Start_irq (now off id : Nat) (sgl : Bool) (g : Nat)
    (s : EvState)
    (hlen : id < s.m_events.length)
    (hmode : (evAt s id).irqMode ≠ IrqModes.NO_IRQ)
    (hg : (evAt s id).irqGpio = some g) :
    AppEvent_Start now off id sgl s
      = some (modEv id (startedIrq now sgl) s) := by
  unfold AppEvent_Start
  rw [if_pos hlen]
  unfold StartEvent
  rw [evAt_modEv_self _ _ _ hlen]
  rw [if_neg (show ¬ ((fun ev => ({ ev with
      triggered := false
      single := sgl
      diagnostics := { ev.diagnostics with startTime := now } } : AppEvent))
      (evAt s id)).irqMode = IrqModes.NO_IRQ from hmode)]
  rw [show ((fun ev => ({ ev with
      triggered := false
      single := sgl
      diagnostics := { ev.diagnostics with startTime := now } } : AppEvent))
      (evAt s id)).irqGpio = some g from hg]
  rw [modEv_modEv _ _ _ _ hlen]
  exact congrArg some (modEv_congr _ _ _ _ rfl)

/-- C7: after SetTimeout(id, t) on a timer-kind event the pending flag is
discarded, the stored timeout equals t, and GetTimeout(id) returns t. -/
theorem C7_settimeout_then_gettimeout (id t : Nat) (s : EvState)
    (hlen : id < s.m_events.length)
    (hgpio : (evAt s id).irqGpio = none) :
    ∃ s1, AppEvent_SetTimeout id t s = some s1 ∧
      (evAt s1 id).triggered = false ∧
      (evAt s1 id).timeout = t ∧
      AppEvent_GetTimeout id s1 = some t := by
  refine ⟨modEv id (fun ev => { ev with
      timerValue := t, triggered := false, timeout := t }) s, ?_, ?_, ?_, ?_⟩
  · unfold AppEvent_SetTimeout
    rw [if_pos hlen, if_pos hgpio]
  · rw [evAt_modEv_self _ _ _ hlen]
  · rw [evAt_modEv_self _ _ _ hlen]
  · unfold AppEvent_GetTimeout
    rw [if_pos (show id < (modEv id (fun ev => { ev with
        timerValue := t, triggered := false, timeout := t }) s).m_events.length by
      rw [modEv_length]; exact hlen)]
    rw [evAt_modEv_self _ _ _ hlen]
    rw [if_pos (show ((fun ev => ({ ev with
        timerValue := t, triggered := false, timeout := t } : AppEvent))
        (evAt s id)).irqGpio = none from hgpio)]

/-- C6: triggering an IMMEDIATE-context event runs the callback exactly
once, synchronously, bumps triggerCount and processCount together by one,
does not touch the persistent triggered flag, and touches no other slot. -/
theorem C6_immediate_trigger (fuel i : Nat) (s : EvState)
    (hlen : i < s.m_events.length)
    (hctx : (evAt s i).context = APP_EVENT_CONTEXTS.IMMEDIATE)
    (hcb : (evAt s i).callback = Cb.skip)
    (htc : (evAt s i).diagnostics.triggerCount + 1 < 65536)
    (hpc : (evAt s i).diagnostics.processCount + 1 < 65536) :
    ∃ s1, DoTrigger fuel i s = some s1 ∧
      (evAt s1 i).invocations = (evAt s i).invocations + 1 ∧
      (evAt s1 i).diagnostics.triggerCount
        = (evAt s i).diagnostics.triggerCount + 1 ∧
      (evAt s1 i).diagnostics.processCount
        = (evAt s i).diagnostics.processCount + 1 ∧
      (evAt s1 i).triggered = (evAt s i).triggered ∧
      (∀ j, j ≠ i → evAt s1 j = evAt s j) := by
  refine ⟨modEv i processedImm s,
    DoTrigger_immediate_skip fuel i s hlen hctx hcb, ?_, ?_, ?_, ?_, ?_⟩
  · rw [evAt_modEv_self _ _ _ hlen]
    rfl
  · rw [evAt_modEv_self _ _ _ hlen]
    exact Nat.mod_eq_of_lt htc
  · rw [evAt_modEv_self _ _ _ hlen]
    exact Nat.mod_eq_of_lt hpc
  · rw [evAt_modEv_self _ _ _ hlen]
    rfl
  · intro j hj
    exact evAt_modEv_ne _ _ _ _ (fun h => hj h.symm)

end AppEventModel

namespace AppEventModel

/-- C4 (amended): only GetTimeout and SetTimeout check the event kind, and
the check only rejects a bound interrupt GPIO — a General-kind event (null
irqGpio) passes and the stored timeout is returned; TimeRemaining and
Running perform no kind check at all and answer for any in-range id. -/
theorem C4_accessor_kind_checks (id : Nat) (s : EvState)
    (hlen : id < s.m_events.length) :
    ((evAt s id).irqGpio = none →
      AppEvent_GetTimeout id s = some (evAt s id).timeout) ∧
    (∀ g, (evAt s id).irqGpio = some g → AppEvent_GetTimeout id s = none) ∧
    AppEvent_TimeRemaining id s = some (evAt s id).timerRemaining ∧
    AppEvent_Running id s = some (evAt s id).timerRunning := by
  refine ⟨?_, ?_, ?_, ?_⟩
  · intro h
    unfold AppEvent_GetTimeout
    rw [if_pos hlen, if_pos h]
  · intro g h
    unfold AppEvent_GetTimeout
    rw [if_pos hlen, if_neg (by rw [h]; simp)]
  · unfold AppEvent_TimeRemaining
    rw [if_pos hlen]
  · unfold AppEvent_Running
    rw [if_pos hlen]

/-- The registry with one General event registered via the real entry
points (used as a concrete state in counterexamples and witnesses). -/
def genState : EvState :=
  ((AppEvent_RegisterEvent (some "G") Cb.skip APP_EVENT_CONTEXTS.MAIN
    (AppEvent_Init initialState)).getD (initialState, 0)).1

/-- C4 counterexample: the registered event 0 is General-kind (not Timer),
yet GetTimeout(0) passes its assertion and returns a value instead of
halting, and TimeRemaining(0) / Running(0) also return normally — the
claimed fatal precondition violation does not occur. -/
theorem C4_counterexample :
    (evAt genState 0).type = EVENT_TYPES.GENERAL ∧
    AppEvent_GetTimeout 0 genState = some 0 ∧
    AppEvent_TimeRemaining 0 genState = some 0 ∧
    AppEvent_Running 0 genState = some false :=
  ⟨rfl, rfl, rfl, rfl⟩

/-- C3 (amended): an out-of-range id is not detected.  Trigger scans the
registered slots, matches nothing, and returns with the state unchanged;
Start performs no range check, so an id below the raw array capacity
reaches and mutates the (unregistered) slot and arms its zero-initialized
timer-branch state. -/
theorem C3_out_of_range_id (fuel id : Nat) (s : EvState)
    (hnomatch : ∀ j, j < s.m_numEvents → (evAt s j).id ≠ id) :
    AppEvent_Trigger fuel id s = some s ∧
    (∀ (now off : Nat) (sgl : Bool),
      id < s.m_events.length →
      (evAt s id).irqMode = IrqModes.NO_IRQ →
      AppEvent_Start now off id sgl s
        = some (modEv id (startedNoIrq now off sgl) s)) := by
  refine ⟨?_, ?_⟩
  · rw [AppEvent_Trigger_eq]
    refine triggerScan_no_match _ _ _ _ (fun j hj => ?_)
    exact hnomatch j (List.mem_range.mp hj)
  · intro now off sgl hlen hmode
    exact AppEvent_Start_noirq now off id sgl s hlen hmode

/-- C3 counterexample: with exactly one registered event, id 5 is out of
range, yet Trigger(5) returns normally with the state unchanged and
Start(5, true) returns normally and mutates unregistered slot 5 — neither
is the claimed fatal halt. -/
theorem C3_counterexample :
    genState.m_numEvents = 1 ∧
    AppEvent_Trigger 1 5 genState = some genState ∧
    (∃ s1, AppEvent_Start 7 0 5 true genState = some s1 ∧
      (evAt s1 5).single = true ∧
      (evAt s1 5).diagnostics.startTime = 7 ∧
      (evAt s1 5).timerRunning = true) := by
  refine ⟨rfl, rfl, ⟨_, rfl, rfl, rfl, rfl⟩⟩

/-- C10: Start(id, single) unconditionally clears the pending flag before
arming, records `single` and the start timestamp, and a sweep run
immediately afterwards (with no other flag pending) dispatches nothing —
the pre-Start trigger is discarded. -/
theorem C10_start_discards_pending (fuel now off id : Nat) (sgl : Bool)
    (s : EvState)
    (hlen : id < s.m_events.length)
    (hok : (evAt s id).irqMode = IrqModes.NO_IRQ
      ∨ ∃ g, (evAt s id).irqGpio = some g)
    (hq : ∀ j, j < s.m_numEvents → j ≠ id → (evAt s j).triggered = false) :
    ∃ s1, AppEvent_Start now off id sgl s = some s1 ∧
      (evAt s1 id).triggered = false ∧
      (evAt s1 id).single = sgl ∧
      (evAt s1 id).diagnostics.startTime = now ∧
      AppEvent_ProcessMainEvents fuel s1 = some s1 := by
  have main : ∀ f : AppEvent → AppEvent,
      ((f (evAt s id)).triggered = false) →
      AppEvent_ProcessMainEvents fuel (modEv id f s) = some (modEv id f s) := by
    intro f hf
    unfold AppEvent_ProcessMainEvents
    rw [modEv_numEvents]
    refine processScan_quiet _ _ _ (fun j hj => ?_)
    have hj' := List.mem_range.mp hj
    by_cases hji : j = id
    · subst hji
      rw [evAt_modEv_self _ _ _ hlen, hf]
      simp
    · rw [evAt_modEv_ne _ _ _ _ (fun h => hji h.symm)]
      rw [hq j hj' hji]
      simp
  rcases hok with hmode | ⟨g, hg⟩
  · refine ⟨modEv id (startedNoIrq now off sgl) s,
      AppEvent_Start_noirq now off id sgl s hlen hmode, ?_, ?_, ?_, ?_⟩
    · rw [evAt_modEv_self _ _ _ hlen]
      rfl
    · rw [evAt_modEv_self _ _ _ hlen]
      rfl
    · rw [evAt_modEv_self _ _ _ hlen]
      rfl
    · exact main _ rfl
  · by_cases hmode : (evAt s id).irqMode = IrqModes.NO_IRQ
    · refine ⟨modEv id (startedNoIrq now off sgl) s,
        AppEvent_Start_noirq now off id sgl s hlen hmode, ?_, ?_, ?_, ?_⟩
      · rw [evAt_modEv_self _ _ _ hlen]
        rfl
      · rw [evAt_modEv_self _ _ _ hlen]
        rfl
      · rw [evAt_modEv_self _ _ _ hlen]
        rfl
      · exact main _ rfl
    · refine ⟨modEv id (startedIrq now sgl) s,
        AppEvent_Start_irq now off id sgl g s hlen hmode hg, ?_, ?_, ?_, ?_⟩
      · rw [evAt_modEv_self _ _ _ hlen]
        rfl
      · rw [evAt_modEv_self _ _ _ hlen]
        rfl
      · rw [evAt_modEv_self _ _ _ hlen]
        rfl
      · exact main _ rfl

end AppEventModel

namespace AppEventModel

/-- C9: Stop only disarms — the pending flag, both diagnostics counters and
every other slot are untouched; and a continuous MAIN timer event whose
flag is still pending when stopped has the stale flag cleared by the next
sweep without a callback invocation and without a processCount increment. -/
theorem C9_stop_frame_and_stale_flag (fuel id : Nat) (s : EvState)
    (hn : s.m_numEvents ≤ s.m_events.length)
    (hi : id < s.m_numEvents)
    (hmode : (evAt s id).irqMode = IrqModes.NO_IRQ)
    (hty : (evAt s id).type = EVENT_TYPES.TIMER)
    (_hctx : (evAt s id).context = APP_EVENT_CONTEXTS.MAIN)
    (hsg : (evAt s id).single = false)
    (ht : (evAt s id).triggered = true)
    (hp : (evAt s id).paused = false)
    (hq : ∀ j, j < s.m_numEvents → j ≠ id → (evAt s j).triggered = false) :
    ∃ s1, AppEvent_Stop id s = some s1 ∧
      (evAt s1 id).triggered = (evAt s id).triggered ∧
      (evAt s1 id).diagnostics.triggerCount
        = (evAt s id).diagnostics.triggerCount ∧
      (evAt s1 id).diagnostics.processCount
        = (evAt s id).diagnostics.processCount ∧
      (evAt s1 id).invocations = (evAt s id).invocations ∧
      (evAt s1 id).timerRunning = false ∧
      (∀ j, j ≠ id → evAt s1 j = evAt s j) ∧
      ∃ s2, AppEvent_ProcessMainEvents fuel s1 = some s2 ∧
        (evAt s2 id).triggered = false ∧
        (evAt s2 id).invocations = (evAt s id).invocations ∧
        (evAt s2 id).diagnostics.processCount
          = (evAt s id).diagnostics.processCount := by
  have hlen : id < s.m_events.length := Nat.lt_of_lt_of_le hi hn
  have hstop : AppEvent_Stop id s
      = some (modEv id (fun ev => { ev with timerRunning := false }) s) := by
    unfold AppEvent_Stop
    rw [if_pos hlen, if_pos hmode]
  have hself := evAt_modEv_self id
    (fun ev => ({ ev with timerRunning := false } : AppEvent)) s hlen
  have hlen1 : id < (modEv id (fun ev =>
      ({ ev with timerRunning := false} : AppEvent)) s).m_events.length := by
    rw [modEv_length]; exact hlen
  refine ⟨modEv id (fun ev => { ev with timerRunning := false }) s, hstop,
    by rw [hself], by rw [hself], by rw [hself], by rw [hself], by rw [hself],
    fun j hj => evAt_modEv_ne _ _ _ _ (fun h => hj h.symm), ?_⟩
  refine ⟨modEv id (fun ev => { ev with triggered := false })
    (modEv id (fun ev => { ev with timerRunning := false }) s), ?_, ?_, ?_, ?_⟩
  · unfold AppEvent_ProcessMainEvents
    rw [modEv_numEvents]
    refine sweep_single fuel s.m_numEvents id _ _ hi (fun j hj hji => ?_) ?_
      (fun j hj hji => ?_)
    · rw [evAt_modEv_ne _ _ _ _ (fun h => hji h.symm)]
      rw [hq j hj hji]
      simp
    · refine processScan_one_stale fuel id _ ?_ ?_ ?_ ?_ ?_ ?_
      · rw [hself]; exact ht
      · rw [hself]; exact hp
      · rw [hself]; exact hmode
      · rw [hself]; exact hsg
      · rw [hself]
      · rw [hself]
        show (evAt s id).type ≠ EVENT_TYPES.GENERAL
        rw [hty]
        simp
    · rw [evAt_modEv_ne _ _ _ _ (fun h => hji h.symm)]
      rw [evAt_modEv_ne _ _ _ _ (fun h => hji h.symm)]
      rw [hq j hj hji]
      simp
  · rw [evAt_modEv_self _ _ _ hlen1]
  · rw [evAt_modEv_self _ _ _ hlen1, hself]
  · rw [evAt_modEv_self _ _ _ hlen1, hself]

/-- The registry id invariant: every registered slot's id equals its
position, so ids are exactly 0..count-1, pairwise distinct, in
registration order. -/
def idsDense (s : EvState) : Prop :=
  ∀ j, j < s.m_numEvents → (evAt s j).id = j

theorem CreateEvent_spec (name : Option String) (cb : Cb)
    (ctx : APP_EVENT_CONTEXTS) (s : EvState)
    (hnum : s.m_numEvents < s.m_events.length)
    (hmod : s.m_numEvents + 1 < 256) :
    ∃ s1, CreateEvent name cb ctx s = some (s1, s.m_numEvents) ∧
      s1.m_numEvents = s.m_numEvents + 1 ∧
      s1.m_events.length = s.m_events.length ∧
      (evAt s1 s.m_numEvents).id = s.m_numEvents ∧
      (∀ j, j ≠ s.m_numEvents → evAt s1 j = evAt s j) := by
  refine ⟨setNum ((s.m_numEvents + 1) % 256)
    (modEv s.m_numEvents (createFields name cb ctx s.m_numEvents) s),
    ?_, ?_, ?_, ?_, ?_⟩
  · unfold CreateEvent
    rw [if_pos hnum]
  · rw [numEvents_setNum]
    exact Nat.mod_eq_of_lt hmod
  · rw [length_setNum, modEv_length]
  · rw [evAt_setNum, evAt_modEv_self _ _ _ hnum]
    rfl
  · intro j hj
    rw [evAt_setNum]
    exact evAt_modEv_ne _ _ _ _ (fun h => hj h.symm)

end AppEventModel

namespace AppEventModel

/-- Effects of the post-CreateEvent slot update of the timer / interrupt
registration entry points on the id invariant. -/
theorem registerAux (s sc : EvState) (post : AppEvent → AppEvent)
    (hlen : s.m_events.length = MAX_EVENTS)
    (hinv : idsDense s)
    (hnum : s.m_numEvents < s.m_events.length)
    (hpost : ∀ ev, (post ev).id = ev.id)
    (hc1 : sc.m_numEvents = s.m_numEvents + 1)
    (hc2 : sc.m_events.length = s.m_events.length)
    (hc3 : (evAt sc s.m_numEvents).id = s.m_numEvents)
    (hc4 : ∀ j, j ≠ s.m_numEvents → evAt sc j = evAt s j) :
    (modEv s.m_numEvents post sc).m_numEvents = s.m_numEvents + 1 ∧
    (modEv s.m_numEvents post sc).m_events.length = MAX_EVENTS ∧
    idsDense (modEv s.m_numEvents post sc) := by
  refine ⟨by rw [modEv_numEvents, hc1], by rw [modEv_length, hc2, hlen], ?_⟩
  intro j hj
  rw [modEv_numEvents, hc1] at hj
  by_cases hji : j = s.m_numEvents
  · subst hji
    have hjlt : s.m_numEvents < sc.m_events.length := by rw [hc2]; exact hnum
    rw [evAt_modEv_self _ _ _ hjlt, hpost, hc3]
  · rw [evAt_modEv_ne _ _ _ _ (fun hh => hji hh.symm)]
    rw [hc4 j hji]
    exact hinv j (by omega)

/-- C5: ids are assigned densely in registration order.  From any state
whose registered slots already satisfy the id invariant, every successful
registration (through any of the four entry points) returns an id equal to
the prior count, bumps the count by one, and preserves the invariant, so
ids are 0,1,2,... in order, pairwise distinct, and exactly 0..count-1. -/
theorem C5_registration_ids (s : EvState) (name : Option String) (cb : Cb)
    (ctx : APP_EVENT_CONTEXTS) (timeout rand : Nat) (gpio : Option Nat)
    (mode : IrqModes) (prio : Nat)
    (hlen : s.m_events.length = MAX_EVENTS)
    (hinv : idsDense s) :
    (∀ s1 newId, AppEvent_RegisterEvent name cb ctx s = some (s1, newId) →
      newId = s.m_numEvents ∧ s1.m_numEvents = s.m_numEvents + 1 ∧
      s1.m_events.length = MAX_EVENTS ∧ idsDense s1) ∧
    (∀ s1 newId, AppEvent_RegisterTimerWithRandomizer name cb timeout rand
        ctx s = some (s1, newId) →
      newId = s.m_numEvents ∧ s1.m_numEvents = s.m_numEvents + 1 ∧
      s1.m_events.length = MAX_EVENTS ∧ idsDense s1) ∧
    (∀ s1 newId, AppEvent_RegisterTimer name cb timeout ctx s
        = some (s1, newId) →
      newId = s.m_numEvents ∧ s1.m_numEvents = s.m_numEvents + 1 ∧
      s1.m_events.length = MAX_EVENTS ∧ idsDense s1) ∧
    (∀ s1 newId, AppEvent_RegisterInterrupt name cb gpio mode prio ctx s
        = some (s1, newId) →
      newId = s.m_numEvents ∧ s1.m_numEvents = s.m_numEvents + 1 ∧
      s1.m_events.length = MAX_EVENTS ∧ idsDense s1) := by
  have hwr : ∀ rnd s1 newId,
      AppEvent_RegisterTimerWithRandomizer name cb timeout rnd ctx s
        = some (s1, newId) →
      newId = s.m_numEvents ∧ s1.m_numEvents = s.m_numEvents + 1 ∧
      s1.m_events.length = MAX_EVENTS ∧ idsDense s1 := by
    intro rnd s1 newId h
    unfold AppEvent_RegisterTimerWithRandomizer at h
    by_cases hg : s.m_inited ∧ s.m_numEvents < MAX_EVENTS ∧ cb ≠ Cb.null
    · rw [if_pos hg] at h
      have hnum : s.m_numEvents < s.m_events.length := by
        rw [hlen]; exact hg.2.1
      obtain ⟨sc, hceq, hc1, hc2, hc3, hc4⟩ :=
        CreateEvent_spec name cb ctx s hnum (by
          have h32 := hg.2.1
          unfold MAX_EVENTS at h32
          omega)
      rw [hceq] at h
      simp only [Option.some.injEq, Prod.mk.injEq] at h
      obtain ⟨hs1, hid⟩ := h
      subst hs1
      subst hid
      obtain ⟨ha, hb, hcc⟩ := registerAux s sc (timerFields timeout rnd)
        hlen hinv hnum (fun ev => rfl) hc1 hc2 hc3 hc4
      exact ⟨rfl, ha, hb, hcc⟩
    · rw [if_neg hg] at h
      exact absurd h (by simp)
  refine ⟨?_, hwr rand, ?_, ?_⟩
  · intro s1 newId h
    unfold AppEvent_RegisterEvent at h
    by_cases hg : s.m_inited ∧ s.m_numEvents < MAX_EVENTS ∧ cb ≠ Cb.null
    · rw [if_pos hg] at h
      have hnum : s.m_numEvents < s.m_events.length := by
        rw [hlen]; exact hg.2.1
      obtain ⟨sc, hceq, hc1, hc2, hc3, hc4⟩ :=
        CreateEvent_spec name cb ctx s hnum (by
          have h32 := hg.2.1
          unfold MAX_EVENTS at h32
          omega)
      rw [hceq] at h
      simp only [Option.some.injEq, Prod.mk.injEq] at h
      obtain ⟨hs1, hid⟩ := h
      subst hs1
      subst hid
      refine ⟨rfl, hc1, by rw [hc2, hlen], ?_⟩
      intro j hj
      rw [hc1] at hj
      by_cases hji : j = s.m_numEvents
      · subst hji
        exact hc3
      · rw [hc4 j hji]
        exact hinv j (by omega)
    · rw [if_neg hg] at h
      exact absurd h (by simp)
  · intro s1 newId h
    unfold AppEvent_RegisterTimer at h
    by_cases hg : s.m_inited
    · rw [if_pos hg] at h
      exact hwr 0 s1 newId h
    · rw [if_neg hg] at h
      exact absurd h (by simp)
  · intro s1 newId h
    unfold AppEvent_RegisterInterrupt at h
    by_cases hg : s.m_inited ∧ s.m_numEvents < MAX_EVENTS ∧ cb ≠ Cb.null
    · rw [if_pos hg] at h
      have hnum : s.m_numEvents < s.m_events.length := by
        rw [hlen]; exact hg.2.1
      obtain ⟨sc, hceq, hc1, hc2, hc3, hc4⟩ :=
        CreateEvent_spec name cb ctx s hnum (by
          have h32 := hg.2.1
          unfold MAX_EVENTS at h32
          omega)
      rw [hceq] at h
      simp only [Option.some.injEq, Prod.mk.injEq] at h
      obtain ⟨hs1, hid⟩ := h
      subst hs1
      subst hid
      obtain ⟨ha, hb, hcc⟩ := registerAux s sc
        (interruptFields gpio mode prio) hlen hinv hnum
        (fun ev => rfl) hc1 hc2 hc3 hc4
      exact ⟨rfl, ha, hb, hcc⟩
    · rw [if_neg hg] at h
      exact absurd h (by simp)

end AppEventModel

namespace AppEventModel

/-- C1: a continuous MAIN-context timer event that expires N+1 times with
no intervening sweep ends with its flag pending, triggerCount advanced by
exactly N+1 and nothing processed; one subsequent sweep (timer still
armed) processes it exactly once — processCount +1, exactly one callback
invocation — and clears the flag. -/
theorem C1_main_timer_coalescing (fuel N i : Nat) (s : EvState)
    (hn : s.m_numEvents ≤ s.m_events.length)
    (hi : i < s.m_numEvents)
    (hctx : (evAt s i).context = APP_EVENT_CONTEXTS.MAIN)
    (_hty : (evAt s i).type = EVENT_TYPES.TIMER)
    (hm : (evAt s i).irqMode = IrqModes.NO_IRQ)
    (hsg : (evAt s i).single = false)
    (hp : (evAt s i).paused = false)
    (hrun : (evAt s i).timerRunning = true)
    (hcb : (evAt s i).callback = Cb.skip)
    (hq : ∀ j, j < s.m_numEvents → j ≠ i → (evAt s j).triggered = false)
    (htc : (evAt s i).diagnostics.triggerCount + N + 1 < 65536)
    (hpc : (evAt s i).diagnostics.processCount + 1 < 65536) :
    ∃ s1 s2, fireN fuel i (N + 1) s = some s1 ∧
      (evAt s1 i).triggered = true ∧
      (evAt s1 i).diagnostics.triggerCount
        = (evAt s i).diagnostics.triggerCount + (N + 1) ∧
      (evAt s1 i).diagnostics.processCount
        = (evAt s i).diagnostics.processCount ∧
      (evAt s1 i).invocations = (evAt s i).invocations ∧
      (evAt s1 i).timerRunning = true ∧
      AppEvent_ProcessMainEvents fuel s1 = some s2 ∧
      (evAt s2 i).triggered = false ∧
      (evAt s2 i).diagnostics.processCount
        = (evAt s i).diagnostics.processCount + 1 ∧
      (evAt s2 i).invocations = (evAt s i).invocations + 1 ∧
      (evAt s2 i).diagnostics.triggerCount
        = (evAt s i).diagnostics.triggerCount + (N + 1) := by
  have hlen : i < s.m_events.length := Nat.lt_of_lt_of_le hi hn
  have hfire := fireN_main_cont fuel N i s hlen hctx hm hsg hrun
  obtain ⟨h1, h2, h3, h4, h5, _h6, h7, _h8, _h9, _h10, h11, _h12⟩ :=
    firedMainCont_iterate (evAt s i) N htc
  have hself := evAt_modEv_self i (firedMainCont^[N + 1]) s hlen
  have hlen1 : i < (modEv i (firedMainCont^[N + 1]) s).m_events.length := by
    rw [modEv_length]; exact hlen
  refine ⟨modEv i (firedMainCont^[N + 1]) s,
    modEv i processedSkip (modEv i (firedMainCont^[N + 1]) s), hfire,
    by rw [hself]; exact h1,
    by rw [hself]; exact h2,
    by rw [hself]; exact h3,
    by rw [hself]; exact h4,
    by rw [hself]; exact h5,
    ?_, ?_, ?_, ?_, ?_⟩
  · unfold AppEvent_ProcessMainEvents
    rw [modEv_numEvents]
    refine sweep_single fuel s.m_numEvents i _ _ hi (fun j hj hji => ?_)
      ?_ (fun j hj hji => ?_)
    · rw [evAt_modEv_ne _ _ _ _ (fun h => hji h.symm), hq j hj hji]
      simp
    · refine processScan_one_skip fuel i _ hlen1 ?_ ?_ ?_ ?_
      · rw [hself]; exact h1
      · rw [hself, h7]; exact hp
      · right; right; left
        rw [hself]; exact h5
      · rw [hself, h11]; exact hcb
    · rw [evAt_modEv_ne _ _ _ _ (fun h => hji h.symm)]
      rw [evAt_modEv_ne _ _ _ _ (fun h => hji h.symm), hq j hj hji]
      simp
  · rw [evAt_modEv_self _ _ _ hlen1]
    rfl
  · rw [evAt_modEv_self _ _ _ hlen1, hself]
    show ((firedMainCont^[N + 1] (evAt s i)).diagnostics.processCount + 1)
        % 65536 = (evAt s i).diagnostics.processCount + 1
    rw [h3]
    exact Nat.mod_eq_of_lt hpc
  · rw [evAt_modEv_self _ _ _ hlen1, hself]
    show (firedMainCont^[N + 1] (evAt s i)).invocations + 1
      = (evAt s i).invocations + 1
    rw [h4]
  · rw [evAt_modEv_self _ _ _ hlen1, hself]
    show (firedMainCont^[N + 1] (evAt s i)).diagnostics.triggerCount
      = (evAt s i).diagnostics.triggerCount + (N + 1)
    exact h2

/-- C2: a MAIN-context event admitted in a sweep has its flag cleared
before its callback runs, so a callback that re-triggers the same event
leaves the flag pending after the sweep (the re-trigger is recorded, not
lost), the callback having been invoked exactly once in the sweep. -/
theorem C2_retrigger_in_callback (fuel i : Nat) (s : EvState)
    (hn : s.m_numEvents ≤ s.m_events.length)
    (hi : i < s.m_numEvents)
    (ht : (evAt s i).triggered = true)
    (hp : (evAt s i).paused = false)
    (hadm : (evAt s i).irqMode ≠ IrqModes.NO_IRQ ∨ (evAt s i).single = true
      ∨ (evAt s i).timerRunning = true ∨ (evAt s i).type = EVENT_TYPES.GENERAL)
    (hcb : (evAt s i).callback = Cb.trig (evAt s i).id)
    (hctx : (evAt s i).context = APP_EVENT_CONTEXTS.MAIN)
    (hid : ∀ j, j < s.m_numEvents → j ≠ i → (evAt s j).id ≠ (evAt s i).id)
    (hq : ∀ j, j < s.m_numEvents → j ≠ i → (evAt s j).triggered = false)
    (htc : (evAt s i).diagnostics.triggerCount + 1 < 65536)
    (hpc : (evAt s i).diagnostics.processCount + 1 < 65536) :
    ∃ s2, AppEvent_ProcessMainEvents (fuel + 1) s = some s2 ∧
      (evAt s2 i).triggered = true ∧
      (evAt s2 i).invocations = (evAt s i).invocations + 1 ∧
      (evAt s2 i).diagnostics.processCount
        = (evAt s i).diagnostics.processCount + 1 ∧
      (evAt s2 i).diagnostics.triggerCount
        = (evAt s i).diagnostics.triggerCount + 1 := by
  have hlen : i < s.m_events.length := Nat.lt_of_lt_of_le hi hn
  refine ⟨modEv i processedRetrig s, ?_, ?_, ?_, ?_, ?_⟩
  · unfold AppEvent_ProcessMainEvents
    refine sweep_single (fuel + 1) s.m_numEvents i s _ hi (fun j hj hji => ?_)
      (processScan_one_retrig fuel i s hlen hi ht hp hadm hcb hctx hid)
      (fun j hj hji => ?_)
    · rw [hq j hj hji]
      simp
    · rw [evAt_modEv_ne _ _ _ _ (fun h => hji h.symm), hq j hj hji]
      simp
  · rw [evAt_modEv_self _ _ _ hlen]
    rfl
  · rw [evAt_modEv_self _ _ _ hlen]
    rfl
  · rw [evAt_modEv_self _ _ _ hlen]
    show ((evAt s i).diagnostics.processCount + 1) % 65536
      = (evAt s i).diagnostics.processCount + 1
    exact Nat.mod_eq_of_lt hpc
  · rw [evAt_modEv_self _ _ _ hlen]
    show ((evAt s i).diagnostics.triggerCount + 1) % 65536
      = (evAt s i).diagnostics.triggerCount + 1
    exact Nat.mod_eq_of_lt htc

end AppEventModel

namespace AppEventModel

/-- C8 (amended): for a MAIN-context event, while paused the sweep leaves
it (and its callback) untouched although the producer path still sets the
flag and advances triggerCount; after Resume, the pending flag is
dispatched by the next sweep provided the event passes the admission test
(interrupt-kind, single-shot, still-armed timer, or General kind). -/
theorem C8_pause_resume_dispatch (fuel i : Nat) (s : EvState)
    (hn : s.m_numEvents ≤ s.m_events.length)
    (hi : i < s.m_numEvents)
    (hctx : (evAt s i).context = APP_EVENT_CONTEXTS.MAIN)
    (hcb : (evAt s i).callback = Cb.skip)
    (hadm : (evAt s i).irqMode ≠ IrqModes.NO_IRQ ∨ (evAt s i).single = true
      ∨ (evAt s i).timerRunning = true ∨ (evAt s i).type = EVENT_TYPES.GENERAL)
    (hq : ∀ j, j < s.m_numEvents → j ≠ i → (evAt s j).triggered = false)
    (htc : (evAt s i).diagnostics.triggerCount + 1 < 65536)
    (hpc : (evAt s i).diagnostics.processCount + 1 < 65536) :
    ∃ s1 s2 s3 s4,
      AppEvent_Pause i s = some s1 ∧
      (evAt s1 i).paused = true ∧
      DoTrigger fuel i s1 = some s2 ∧
      (evAt s2 i).triggered = true ∧
      (evAt s2 i).diagnostics.triggerCount
        = (evAt s i).diagnostics.triggerCount + 1 ∧
      AppEvent_ProcessMainEvents fuel s2 = some s2 ∧
      AppEvent_Resume i s2 = some s3 ∧
      AppEvent_ProcessMainEvents fuel s3 = some s4 ∧
      (evAt s4 i).triggered = false ∧
      (evAt s4 i).invocations = (evAt s i).invocations + 1 ∧
      (evAt s4 i).diagnostics.processCount
        = (evAt s i).diagnostics.processCount + 1 := by
  have hlen : i < s.m_events.length := Nat.lt_of_lt_of_le hi hn
  have hlen1 : ∀ f : AppEvent → AppEvent,
      i < (modEv i f s).m_events.length := fun f => by
    rw [modEv_length]; exact hlen
  -- s1: paused
  have hpause : AppEvent_Pause i s
      = some (modEv i (fun ev => { ev with paused := true }) s) := by
    unfold AppEvent_Pause
    rw [if_pos hlen, if_pos hctx]
  -- s2: flag set while paused
  have hs2eq : DoTrigger fuel i (modEv i (fun ev => { ev with paused := true }) s)
      = some (modEv i (fun e => triggeredMain ({ e with paused := true} : AppEvent)) s) := by
    rw [DoTrigger_main fuel i _ (by
      rw [evAt_modEv_self _ _ _ hlen]
      exact hctx)]
    rw [modEv_modEv _ _ _ _ hlen]
  have hself2 := evAt_modEv_self i
    (fun e => triggeredMain ({ e with paused := true} : AppEvent)) s hlen
  -- the paused sweep is a no-op
  have hsweep2 : AppEvent_ProcessMainEvents fuel
      (modEv i (fun e => triggeredMain ({ e with paused := true} : AppEvent)) s)
      = some (modEv i (fun e => triggeredMain ({ e with paused := true} : AppEvent)) s) := by
    unfold AppEvent_ProcessMainEvents
    rw [modEv_numEvents]
    refine processScan_quiet _ _ _ (fun j hj => ?_)
    have hj' := List.mem_range.mp hj
    by_cases hji : j = i
    · subst hji
      rw [hself2]
      simp [triggeredMain]
    · rw [evAt_modEv_ne _ _ _ _ (fun h => hji h.symm), hq j hj' hji]
      simp
  -- s3: resumed
  have hresume : AppEvent_Resume i
      (modEv i (fun e => triggeredMain ({ e with paused := true} : AppEvent)) s)
      = some (modEv i (fun e => ({ triggeredMain ({ e with paused := true} : AppEvent)
          with paused := false })) s) := by
    unfold AppEvent_Resume
    rw [if_pos (hlen1 _), if_pos (by rw [hself2]; exact hctx)]
    rw [modEv_modEv _ _ _ _ hlen]
  have hself3 := evAt_modEv_self i
    (fun e => ({ triggeredMain ({ e with paused := true} : AppEvent)
      with paused := false } : AppEvent)) s hlen
  refine ⟨modEv i (fun ev => { ev with paused := true }) s,
    modEv i (fun e => triggeredMain ({ e with paused := true} : AppEvent)) s,
    modEv i (fun e => ({ triggeredMain ({ e with paused := true} : AppEvent)
      with paused := false })) s,
    modEv i processedSkip
      (modEv i (fun e => ({ triggeredMain ({ e with paused := true} : AppEvent)
        with paused := false })) s),
    hpause,
    by rw [evAt_modEv_self _ _ _ hlen],
    hs2eq,
    by rw [hself2]; rfl,
    by
      rw [hself2]
      show ((evAt s i).diagnostics.triggerCount + 1) % 65536
        = (evAt s i).diagnostics.triggerCount + 1
      exact Nat.mod_eq_of_lt htc,
    hsweep2,
    hresume,
    ?_, ?_, ?_, ?_⟩
  · unfold AppEvent_ProcessMainEvents
    rw [modEv_numEvents]
    refine sweep_single fuel s.m_numEvents i _ _ hi (fun j hj hji => ?_)
      ?_ (fun j hj hji => ?_)
    · rw [evAt_modEv_ne _ _ _ _ (fun h => hji h.symm), hq j hj hji]
      simp
    · refine processScan_one_skip fuel i _ (hlen1 _) ?_ ?_ ?_ ?_
      · rw [hself3]
        rfl
      · rw [hself3]
      · rw [hself3]
        rcases hadm with h | h | h | h
        · left; exact h
        · right; left; exact h
        · right; right; left; exact h
        · right; right; right; exact h
      · rw [hself3]
        exact hcb
    · rw [evAt_modEv_ne _ _ _ _ (fun h => hji h.symm)]
      rw [evAt_modEv_ne _ _ _ _ (fun h => hji h.symm), hq j hj hji]
      simp
  · rw [evAt_modEv_self _ _ _ (hlen1 _)]
    rfl
  · rw [evAt_modEv_self _ _ _ (hlen1 _), hself3]
    rfl
  · rw [evAt_modEv_self _ _ _ (hlen1 _), hself3]
    show ((evAt s i).diagnostics.processCount + 1) % 65536
      = (evAt s i).diagnostics.processCount + 1
    exact Nat.mod_eq_of_lt hpc

end AppEventModel

namespace AppEventModel

/-! Concrete scenario states, built through the real entry points. -/

/-- One continuous MAIN timer event "T" (timeout 100 ms), registered. -/
def wTimer : EvState :=
  ((AppEvent_RegisterTimer (some "T") Cb.skip 100 APP_EVENT_CONTEXTS.MAIN
    (AppEvent_Init initialState)).getD (initialState, 0)).1

/-- ... then started continuous at time 55. -/
def wStarted : EvState :=
  (AppEvent_Start 55 0 0 false wTimer).getD initialState

/-- ... then expired once: flag pending, timer re-armed. -/
def wPending : EvState :=
  (timerFire 1 0 0 wStarted).getD initialState

/-- One MAIN event "R" whose callback re-triggers id 0 (its own id). -/
def wRetrig : EvState :=
  ((AppEvent_RegisterEvent (some "R") (Cb.trig 0) APP_EVENT_CONTEXTS.MAIN
    (AppEvent_Init initialState)).getD (initialState, 0)).1

/-- ... with its flag pending. -/
def wRetrigT : EvState :=
  (AppEvent_Trigger 1 0 wRetrig).getD initialState

/-- One IMMEDIATE event "I". -/
def wImm : EvState :=
  ((AppEvent_RegisterEvent (some "I") Cb.skip APP_EVENT_CONTEXTS.IMMEDIATE
    (AppEvent_Init initialState)).getD (initialState, 0)).1

/-- The stopped-while-pending-and-paused scenario: pending flag, paused,
stopped, resumed. -/
def c8Paused : EvState := (AppEvent_Pause 0 wPending).getD initialState

def c8Stopped : EvState := (AppEvent_Stop 0 c8Paused).getD initialState

def c8Resumed : EvState := (AppEvent_Resume 0 c8Stopped).getD initialState

/-- C8 counterexample: a continuous MAIN timer event with a pending flag is
paused, stopped, then resumed; its flag is still pending at the next sweep,
yet the sweep clears the flag without dispatching the callback (the
stopped continuous timer fails the admission test), contradicting the
claim that after Resume a pending flag causes the callback to be
dispatched on the next sweep. -/
theorem C8_counterexample :
    (evAt c8Resumed 0).context = APP_EVENT_CONTEXTS.MAIN ∧
    (evAt c8Resumed 0).triggered = true ∧
    (evAt c8Resumed 0).paused = false ∧
    (evAt c8Resumed 0).invocations = 0 ∧
    ∃ s5, AppEvent_ProcessMainEvents 1 c8Resumed = some s5 ∧
      (evAt s5 0).invocations = 0 ∧
      (evAt s5 0).diagnostics.processCount = 0 ∧
      (evAt s5 0).triggered = false :=
  ⟨rfl, rfl, rfl, rfl, _, rfl, rfl, rfl, rfl⟩

end AppEventModel

namespace AppEventModel

theorem C1_main_timer_coalescing_witness :
    ∃ s1 s2, fireN 1 0 (2 + 1) wStarted = some s1 ∧
      (evAt s1 0).triggered = true ∧
      (evAt s1 0).diagnostics.triggerCount
        = (evAt wStarted 0).diagnostics.triggerCount + (2 + 1) ∧
      (evAt s1 0).diagnostics.processCount
        = (evAt wStarted 0).diagnostics.processCount ∧
      (evAt s1 0).invocations = (evAt wStarted 0).invocations ∧
      (evAt s1 0).timerRunning = true ∧
      AppEvent_ProcessMainEvents 1 s1 = some s2 ∧
      (evAt s2 0).triggered = false ∧
      (evAt s2 0).diagnostics.processCount
        = (evAt wStarted 0).diagnostics.processCount + 1 ∧
      (evAt s2 0).invocations = (evAt wStarted 0).invocations + 1 ∧
      (evAt s2 0).diagnostics.triggerCount
        = (evAt wStarted 0).diagnostics.triggerCount + (2 + 1) :=
  C1_main_timer_coalescing 1 2 0 wStarted (by decide) (by decide) rfl rfl rfl
    rfl rfl rfl rfl (fun j hj hji => absurd (Nat.lt_one_iff.mp hj) hji)
    (by decide) (by decide)

theorem C2_retrigger_in_callback_witness :
    ∃ s2, AppEvent_ProcessMainEvents (0 + 1) wRetrigT = some s2 ∧
      (evAt s2 0).triggered = true ∧
      (evAt s2 0).invocations = (evAt wRetrigT 0).invocations + 1 ∧
      (evAt s2 0).diagnostics.processCount
        = (evAt wRetrigT 0).diagnostics.processCount + 1 ∧
      (evAt s2 0).diagnostics.triggerCount
        = (evAt wRetrigT 0).diagnostics.triggerCount + 1 :=
  C2_retrigger_in_callback 0 0 wRetrigT (by decide) (by decide) rfl rfl
    (Or.inr (Or.inr (Or.inr rfl))) rfl rfl
    (fun j hj hji => absurd (Nat.lt_one_iff.mp hj) hji)
    (fun j hj hji => absurd (Nat.lt_one_iff.mp hj) hji)
    (by decide) (by decide)

theorem C3_out_of_range_id_witness :
    AppEvent_Trigger 1 5 genState = some genState ∧
    (∀ (now off : Nat) (sgl : Bool),
      5 < genState.m_events.length →
      (evAt genState 5).irqMode = IrqModes.NO_IRQ →
      AppEvent_Start now off 5 sgl genState
        = some (modEv 5 (startedNoIrq now off sgl) genState)) :=
  C3_out_of_range_id 1 5 genState
    (fun j hj => by
      have hj0 := Nat.lt_one_iff.mp hj
      subst hj0
      decide)

theorem C4_accessor_kind_checks_witness :
    ((evAt genState 0).irqGpio = none →
      AppEvent_GetTimeout 0 genState = some (evAt genState 0).timeout) ∧
    (∀ g, (evAt genState 0).irqGpio = some g →
      AppEvent_GetTimeout 0 genState = none) ∧
    AppEvent_TimeRemaining 0 genState = some (evAt genState 0).timerRemaining ∧
    AppEvent_Running 0 genState = some (evAt genState 0).timerRunning :=
  C4_accessor_kind_checks 0 genState (by decide)

theorem C5_registration_ids_witness :
    (∀ s1 newId, AppEvent_RegisterEvent (some "A") Cb.skip
        APP_EVENT_CONTEXTS.MAIN (AppEvent_Init initialState)
        = some (s1, newId) →
      newId = (AppEvent_Init initialState).m_numEvents ∧
      s1.m_numEvents = (AppEvent_Init initialState).m_numEvents + 1 ∧
      s1.m_events.length = MAX_EVENTS ∧ idsDense s1) ∧
    (∀ s1 newId, AppEvent_RegisterTimerWithRandomizer (some "A") Cb.skip
        10 2 APP_EVENT_CONTEXTS.MAIN (AppEvent_Init initialState)
        = some (s1, newId) →
      newId = (AppEvent_Init initialState).m_numEvents ∧
      s1.m_numEvents = (AppEvent_Init initialState).m_numEvents + 1 ∧
      s1.m_events.length = MAX_EVENTS ∧ idsDense s1) ∧
    (∀ s1 newId, AppEvent_RegisterTimer (some "A") Cb.skip 10
        APP_EVENT_CONTEXTS.MAIN (AppEvent_Init initialState)
        = some (s1, newId) →
      newId = (AppEvent_Init initialState).m_numEvents ∧
      s1.m_numEvents = (AppEvent_Init initialState).m_numEvents + 1 ∧
      s1.m_events.length = MAX_EVENTS ∧ idsDense s1) ∧
    (∀ s1 newId, AppEvent_RegisterInterrupt (some "A") Cb.skip (some 3)
        IrqModes.IRQ_RISING 1 APP_EVENT_CONTEXTS.MAIN
        (AppEvent_Init initialState) = some (s1, newId) →
      newId = (AppEvent_Init initialState).m_numEvents ∧
      s1.m_numEvents = (AppEvent_Init initialState).m_numEvents + 1 ∧
      s1.m_events.length = MAX_EVENTS ∧ idsDense s1) :=
  C5_registration_ids (AppEvent_Init initialState) (some "A") Cb.skip
    APP_EVENT_CONTEXTS.MAIN 10 2 (some 3) IrqModes.IRQ_RISING 1
    (by decide) (fun j hj => absurd hj (Nat.not_lt_zero j))

theorem C6_immediate_trigger_witness :
    ∃ s1, DoTrigger 1 0 wImm = some s1 ∧
      (evAt s1 0).invocations = (evAt wImm 0).invocations + 1 ∧
      (evAt s1 0).diagnostics.triggerCount
        = (evAt wImm 0).diagnostics.triggerCount + 1 ∧
      (evAt s1 0).diagnostics.processCount
        = (evAt wImm 0).diagnostics.processCount + 1 ∧
      (evAt s1 0).triggered = (evAt wImm 0).triggered ∧
      (∀ j, j ≠ 0 → evAt s1 j = evAt wImm j) :=
  C6_immediate_trigger 1 0 wImm (by decide) rfl rfl (by decide) (by decide)

theorem C7_settimeout_then_gettimeout_witness :
    ∃ s1, AppEvent_SetTimeout 0 250 wTimer = some s1 ∧
      (evAt s1 0).triggered = false ∧
      (evAt s1 0).timeout = 250 ∧
      AppEvent_GetTimeout 0 s1 = some 250 :=
  C7_settimeout_then_gettimeout 0 250 wTimer (by decide) rfl

theorem C8_pause_resume_dispatch_witness :
    ∃ s1 s2 s3 s4,
      AppEvent_Pause 0 wStarted = some s1 ∧
      (evAt s1 0).paused = true ∧
      DoTrigger 1 0 s1 = some s2 ∧
      (evAt s2 0).triggered = true ∧
      (evAt s2 0).diagnostics.triggerCount
        = (evAt wStarted 0).diagnostics.triggerCount + 1 ∧
      AppEvent_ProcessMainEvents 1 s2 = some s2 ∧
      AppEvent_Resume 0 s2 = some s3 ∧
      AppEvent_ProcessMainEvents 1 s3 = some s4 ∧
      (evAt s4 0).triggered = false ∧
      (evAt s4 0).invocations = (evAt wStarted 0).invocations + 1 ∧
      (evAt s4 0).diagnostics.processCount
        = (evAt wStarted 0).diagnostics.processCount + 1 :=
  C8_pause_resume_dispatch 1 0 wStarted (by decide) (by decide) rfl rfl
    (Or.inr (Or.inr (Or.inl rfl)))
    (fun j hj hji => absurd (Nat.lt_one_iff.mp hj) hji)
    (by decide) (by decide)

theorem C9_stop_frame_and_stale_flag_witness :
    ∃ s1, AppEvent_Stop 0 wPending = some s1 ∧
      (evAt s1 0).triggered = (evAt wPending 0).triggered ∧
      (evAt s1 0).diagnostics.triggerCount
        = (evAt wPending 0).diagnostics.triggerCount ∧
      (evAt s1 0).diagnostics.processCount
        = (evAt wPending 0).diagnostics.processCount ∧
      (evAt s1 0).invocations = (evAt wPending 0).invocations ∧
      (evAt s1 0).timerRunning = false ∧
      (∀ j, j ≠ 0 → evAt s1 j = evAt wPending j) ∧
      ∃ s2, AppEvent_ProcessMainEvents 1 s1 = some s2 ∧
        (evAt s2 0).triggered = false ∧
        (evAt s2 0).invocations = (evAt wPending 0).invocations ∧
        (evAt s2 0).diagnostics.processCount
          = (evAt wPending 0).diagnostics.processCount :=
  C9_stop_frame_and_stale_flag 1 0 wPending (by decide) (by decide) rfl rfl
    rfl rfl rfl rfl (fun j hj hji => absurd (Nat.lt_one_iff.mp hj) hji)

theorem C10_start_discards_pending_witness :
    ∃ s1, AppEvent_Start 77 0 0 true wPending = some s1 ∧
      (evAt s1 0).triggered = false ∧
      (evAt s1 0).single = true ∧
      (evAt s1 0).diagnostics.startTime = 77 ∧
      AppEvent_ProcessMainEvents 1 s1 = some s1 :=
  C10_start_discards_pending 1 77 0 0 true wPending (by decide)
    (Or.inl rfl) (fun j hj hji => absurd (Nat.lt_one_iff.mp hj) hji)

end AppEventModel
